import Mathlib

/-!
Verification development for the payment-orchestration microservice.

The definitions below are a shallow embedding of the JavaScript sources:

* `paymentService.js` — the pure helpers `validatePaymentData`,
  `calculateTransactionFees` and `canRefund`;
* `paymentController.js` — the orchestrator operations `createPayment`,
  `updatePaymentStatus`, `processRefund`, `cancelPayment`, the Stripe
  webhook dispatcher `handleStripeWebhook` and its event handlers
  `handleCheckoutCompleted` / `handleCheckoutExpired`, plus the fee helper
  `calculateStripeFees`.

Conventions of the embedding:

* JavaScript numbers are modelled as exact rationals (`Rat`); timestamps
  (`Date.now()`, `paymentDate`, ...) as epoch milliseconds (`Int`).
* `Math.round` is `jsRound` (floor of `x + 1/2`, which is exactly the JS
  behaviour of rounding halves toward positive infinity).
* Payment statuses and payment methods are kept as the French string
  literals of the source ("en_attente", "complété", "carte_credit", ...).
* Absent / undefined JS fields are `Option.none`.
* The external database microservice is an opaque HTTP collaborator; its
  store is modelled as an association list `Db` with last-write-wins
  (`dbSet` prepends).  Endpoints whose behaviour is not in this repository
  (`POST /refund`, `POST /mark-completed`) are modelled from the spec and
  say so in their doc comments.
* Error responses are modelled as explicit result constructors; the doc
  comments quote the HTTP status and message of the source.
-/

set_option autoImplicit false

namespace PaymentSvc

/-- JS `Math.round`: halves round toward positive infinity. -/
def jsRound (x : Rat) : Int := ⌊x + 1/2⌋

/-- The source idiom `Math.round(x * 100) / 100`: round to 2 decimals. -/
def round2 (x : Rat) : Rat := ((jsRound (x * 100) : Int) : Rat) / 100

/-- Sensitive card details carried in the `paymentDetails` request field. -/
structure PaymentDetails where
  cardNumber : Option String := none
  expiryDate : Option String := none
  cvv : Option String := none
deriving Repr, DecidableEq

/-- `paymentMethodInfo` stored by the checkout-completed webhook handler. -/
structure PaymentMethodInfo where
  methodType : String
  last4 : Option String := none
  brand : Option String := none
  country : Option String := none
deriving Repr, DecidableEq

/-- The central Payment record (fields as persisted by the controller).
Statuses are the French strings of the source:
"en_attente", "traitement", "complété", "échoué", "remboursé", "annulé". -/
structure Payment where
  reservationId : Option String := none
  paymentMethod : Option String := none
  amount : Rat := 0
  currency : String := "EUR"
  transactionId : Option String := none
  status : String := "en_attente"
  billingAddress : Option String := none
  description : Option String := none
  paymentDetails : Option PaymentDetails := none
  paymentDate : Option Int := none
  refundAmount : Rat := 0
  refundDate : Option Int := none
  refundReason : Option String := none
  fees : Option Rat := none
  netAmount : Option Rat := none
  stripeSessionId : Option String := none
  paymentMethodInfo : Option PaymentMethodInfo := none
  notes : Option String := none
  failureDate : Option Int := none
deriving Repr, DecidableEq

/-- The external database service store, keyed by payment id. -/
abbrev Db := List (String × Payment)

/-- Lookup a payment by id (`databaseService.findPaymentById`; a 404 from
the external service is translated to `none`). -/
def dbFind : Db → String → Option Payment
  | [], _ => none
  | (k, q) :: rest, id => if k = id then some q else dbFind rest id

/-- Persist an updated record (`databaseService.updatePayment`); the most
recent write is found first, i.e. last-write-wins. -/
def dbSet (db : Db) (id : String) (p : Payment) : Db := (id, p) :: db

/-! ### paymentService.js — pure helpers -/

/-- `validMethods` of `validatePaymentData`. -/
def validMethods : List String := ["carte_credit", "paypal", "virement", "especes", "autre"]

/-- The create-payment request body.  The source has two reservation field
names: the validator reads `paymentData.reservation` while the current
controller reads `paymentData.reservationId`. -/
structure PaymentRequest where
  reservation : Option String := none
  reservationId : Option String := none
  amount : Option Rat := none
  currency : Option String := none
  paymentMethod : Option String := none
  billingAddress : Option String := none
  description : Option String := none
  paymentDetails : Option PaymentDetails := none
deriving Repr, DecidableEq

/-- `paymentService.validatePaymentData`: returns the list of
human-readable validation errors (empty list = valid).  A JS falsy check
`!x` on a request field is modelled as the field being `none`, except the
amount where `!amount || amount <= 0` also rejects `0`. -/
def validatePaymentData (d : PaymentRequest) : List String :=
  (if d.reservation = none then ["ID de réservation requis"] else []) ++
  (match d.amount with
   | none => ["Montant invalide"]
   | some a => if a ≤ 0 then ["Montant invalide"] else []) ++
  (if d.paymentMethod = none then ["Méthode de paiement requise"] else []) ++
  (match d.paymentMethod with
   | none => []
   | some m => if m ∈ validMethods then [] else ["Méthode de paiement invalide"]) ++
  (if d.paymentMethod = some "carte_credit" then
     (if (d.paymentDetails.bind PaymentDetails.cardNumber) = none then
        ["Numéro de carte requis"] else []) ++
     (if (d.paymentDetails.bind PaymentDetails.expiryDate) = none then
        ["Date d'expiration requise"] else []) ++
     (if (d.paymentDetails.bind PaymentDetails.cvv) = none then
        ["Code CVV requis"] else [])
   else [])

/-- The `fees` percentage table of `calculateTransactionFees`; a JS object
lookup with `|| 0` default for unknown methods. -/
def feeRateOf (m : String) : Rat :=
  if m = "carte_credit" then 29/1000
  else if m = "paypal" then 34/1000
  else if m = "virement" then 5/1000
  else 0

/-- The `fixedFees` table of `calculateTransactionFees` (`|| 0` default). -/
def fixedFeeOf (m : String) : Rat :=
  if m = "carte_credit" then 30/100
  else if m = "paypal" then 35/100
  else 0

/-- Result shape of `calculateTransactionFees`. -/
structure FeeResult where
  amount : Rat
  percentageFee : Rat
  fixedFee : Rat
  totalFees : Rat
  netAmount : Rat
deriving Repr, DecidableEq

/-- `paymentService.calculateTransactionFees`: note that `netAmount` is
computed from the un-rounded local `totalFees`, exactly as in the source. -/
def calculateTransactionFees (amount : Rat) (paymentMethod : String) : FeeResult :=
  let percentageFee := amount * feeRateOf paymentMethod
  let fixedFee := fixedFeeOf paymentMethod
  let totalFees := percentageFee + fixedFee
  { amount := amount
    percentageFee := round2 percentageFee
    fixedFee := fixedFee
    totalFees := round2 totalFees
    netAmount := round2 (amount - totalFees) }

/-- The rejection reasons of `canRefund`.  `maxRefundable` carries the
amount interpolated into the source message
"Montant maximum remboursable: ...€". -/
inductive RefundReason where
  /-- "Seuls les paiements complétés peuvent être remboursés" -/
  | notCompleted
  /-- "Montant maximum remboursable: `max`€" -/
  | maxRefundable (max : Rat)
  /-- "Délai de remboursement dépassé (30 jours)" -/
  | windowPassed
deriving Repr, DecidableEq

/-- Result shape of `canRefund`. -/
structure RefundCheck where
  canRefund : Bool
  reason : Option RefundReason := none
deriving Repr, DecidableEq

/-- 30 days in milliseconds: the `refundDeadline` of `canRefund` is
`paymentDate` plus 30 days. -/
def thirtyDaysMs : Int := 30 * 24 * 60 * 60 * 1000

/-- The deadline test `new Date() > refundDeadline` of `canRefund`.
When `paymentDate` is absent, `new Date(undefined)` is an invalid date and
every JS comparison against its `NaN` time value is false. -/
def afterRefundDeadline (now : Int) (paymentDate : Option Int) : Bool :=
  match paymentDate with
  | some d => now > d + thirtyDaysMs
  | none => false

/-- `paymentService.canRefund`: the three eligibility rules, returning on
the first failure. -/
def canRefund (now : Int) (payment : Payment) (requestedAmount : Rat) : RefundCheck :=
  if payment.status ≠ "complété" then
    { canRefund := false, reason := some RefundReason.notCompleted }
  else
    let maxRefundAmount := payment.amount - payment.refundAmount
    if requestedAmount > maxRefundAmount then
      { canRefund := false, reason := some (RefundReason.maxRefundable maxRefundAmount) }
    else if afterRefundDeadline now payment.paymentDate then
      { canRefund := false, reason := some RefundReason.windowPassed }
    else
      { canRefund := true }

/-! ### paymentController.js — Stripe fee helper and webhook handlers -/

/-- The Stripe fee configuration read from the environment by
`calculateStripeFees`: `parseFloat(STRIPE_FEE_RATE) || 0.029` and
`parseFloat(STRIPE_FIXED_FEE) || 0.25`. -/
structure StripeConfig where
  feeRate : Rat := 29/1000
  fixedFee : Rat := 1/4
deriving Repr, DecidableEq

/-- `calculateStripeFees` of the controller:
`Math.round((amount * feeRate + fixedFee) * 100) / 100`. -/
def calculateStripeFees (cfg : StripeConfig) (amount : Rat) : Rat :=
  round2 (amount * cfg.feeRate + cfg.fixedFee)

/-- `session.payment_method_details.card` as read by the
checkout-completed handler. -/
structure CardDetails where
  last4 : Option String := none
  brand : Option String := none
  country : Option String := none
deriving Repr, DecidableEq

/-- The Stripe session object delivered in `event.data.object`.
`amountTotal` is in cents, as reported by the gateway. -/
structure StripeSession where
  id : String
  paymentIntent : Option String := none
  amountTotal : Option Rat := none
  metadataPaymentId : Option String := none
  paymentMethodDetails : Option CardDetails := none
deriving Repr, DecidableEq

/-- The `paymentMethodInfo` object built by `handleCheckoutCompleted`:
always `type: carte_credit`, extended with card metadata if
`session.payment_method_details` is present. -/
def mkMethodInfo (session : StripeSession) : PaymentMethodInfo :=
  match session.paymentMethodDetails with
  | none => { methodType := "carte_credit" }
  | some d =>
      { methodType := "carte_credit"
        last4 := d.last4
        brand := d.brand
        country := d.country }

/-- The `updateData` record written by `handleCheckoutCompleted`, merged
into the stored payment: status "complété", transaction id
`session.payment_intent || session.id`, payment date now, session id, and
fees/netAmount computed from the gateway-reported `session.amount_total`
(cents) when that field is present and nonzero (JS truthiness). -/
def applyCheckoutCompleted (cfg : StripeConfig) (now : Int) (session : StripeSession)
    (p : Payment) : Payment :=
  let base := { p with
    status := "complété"
    transactionId := some (session.paymentIntent.getD session.id)
    paymentDate := some now
    stripeSessionId := some session.id
    paymentMethodInfo := some (mkMethodInfo session) }
  match session.amountTotal with
  | none => base
  | some cents =>
      if cents = 0 then base
      else
        let gross := cents / 100
        let fees := calculateStripeFees cfg gross
        { base with fees := some fees, netAmount := some (gross - fees) }

/-- Modelled from the spec: the external database service endpoint
`POST /api/payments/:id/mark-completed` (called by the handler through
`databaseService.markPaymentAsCompleted`); the record instance method marks
the payment completed.  A failure of this call is caught and only logged,
so a missing record leaves the store unchanged. -/
def markPaymentAsCompleted (db : Db) (id : String) : Db :=
  match dbFind db id with
  | none => db
  | some p => dbSet db id { p with status := "complété" }

/-- `handleCheckoutCompleted`: correlates the event via
`session.metadata.paymentId`; a missing id or unmatched payment is logged
and dropped; otherwise the `updateData` merge is persisted and the
mark-completed instance method is invoked. -/
def handleCheckoutCompleted (cfg : StripeConfig) (now : Int) (session : StripeSession)
    (db : Db) : Db :=
  match session.metadataPaymentId with
  | none => db
  | some paymentId =>
      match dbFind db paymentId with
      | none => db
      | some p =>
          markPaymentAsCompleted
            (dbSet db paymentId (applyCheckoutCompleted cfg now session p)) paymentId

/-- `handleCheckoutExpired`: correlates via `session.metadata.paymentId`
and unconditionally persists status "échoué" with an explanatory note and
failure date — the current status is never inspected.  An update of a
missing record makes the external service fail; that error is caught and
logged, leaving the store unchanged. -/
def handleCheckoutExpired (now : Int) (session : StripeSession) (db : Db) : Db :=
  match session.metadataPaymentId with
  | none => db
  | some paymentId =>
      match dbFind db paymentId with
      | none => db
      | some p =>
          dbSet db paymentId
            { p with
              status := "échoué"
              notes := some "Session de paiement expirée"
              failureDate := some now }

/-- A webhook event as returned by `stripeService.processWebhook`.  The
`payment_intent.*` handlers only log, so the event object is carried in
the same session shape. -/
structure StripeEvent where
  type : String
  obj : StripeSession
deriving Repr, DecidableEq

/-- The outcome of `stripeService.processWebhook`: either a verified,
parsed event, or a thrown signature/verification error. -/
inductive WebhookInput where
  | valid (event : StripeEvent)
  | badSignature (msg : String)
deriving Repr, DecidableEq

/-- The HTTP response of the webhook endpoint: its status code and whether
the body is the `{received: true}` acknowledgment. -/
structure WebhookResponse where
  status : Nat
  received : Bool
deriving Repr, DecidableEq

/-- `handleStripeWebhook` of the controller: a verification failure is
answered with 400; every verified event — the two checkout handlers, the
log-only `payment_intent.*` handlers, and the logged default branch for
unrecognized types — is acknowledged with `200 {received: true}`.  All
four handlers swallow their own errors internally. -/
def handleStripeWebhook (cfg : StripeConfig) (now : Int) (input : WebhookInput)
    (db : Db) : WebhookResponse × Db :=
  match input with
  | .badSignature _ => ({ status := 400, received := false }, db)
  | .valid event =>
      let db' :=
        if event.type = "checkout.session.completed" then
          handleCheckoutCompleted cfg now event.obj db
        else if event.type = "checkout.session.expired" then
          handleCheckoutExpired now event.obj db
        else if event.type = "payment_intent.succeeded" then db
        else if event.type = "payment_intent.payment_failed" then db
        else db
      ({ status := 200, received := true }, db')

/-! ### paymentController.js — payment CRUD operations -/

/-- Outcome of `createPayment` (current checkout-link flow). -/
inductive CreateResult where
  /-- 400, the joined validation errors -/
  | validationError (errors : List String)
  /-- 404 "Réservation non trouvée" -/
  | reservationNotFound
  /-- 201, the created record under its new id -/
  | created (id : String) (p : Payment)
deriving Repr, DecidableEq

/-- The synthetic placeholder transaction id of `createPayment`:
`temp_${Date.now()}_${random}`. -/
def mkTempTransactionId (now : Int) (rnd : String) : String :=
  "temp_" ++ toString now ++ "_" ++ rnd

/-- The `paymentDataForDB` record assembled by `createPayment`: a
whitelist of safe fields — the sensitive `paymentDetails` of the request
are never copied into it. -/
def paymentDataForDB (now : Int) (rnd : String) (req : PaymentRequest) : Payment :=
  { reservationId := req.reservationId
    paymentMethod := req.paymentMethod
    amount := req.amount.getD 0
    currency := req.currency.getD "EUR"
    transactionId := some (mkTempTransactionId now rnd)
    status := "en_attente"
    billingAddress := req.billingAddress
    description := req.description }

/-- `createPayment` (current flow): validates, confirms the referenced
reservation exists (`reservations` is the set of ids known to the external
service; an absent `reservationId` can never be found), then persists the
whitelisted `paymentDataForDB`.  `newId` is the record id assigned by the
external database service, `rnd` the random suffix of the placeholder id. -/
def createPayment (reservations : List String) (db : Db) (now : Int)
    (rnd newId : String) (req : PaymentRequest) : CreateResult × Db :=
  let errors := validatePaymentData req
  if errors ≠ [] then (.validationError errors, db)
  else
    let reservationFound : Bool :=
      match req.reservationId with
      | some rid => reservations.contains rid
      | none => false
    if reservationFound then
      let record := paymentDataForDB now rnd req
      (.created newId record, dbSet db newId record)
    else (.reservationNotFound, db)

/-- Outcome of `updatePaymentStatus`. -/
inductive UpdateStatusResult where
  /-- 404 "Paiement non trouvé" -/
  | notFound
  /-- 200, the updated record -/
  | updated (p : Payment)
deriving Repr, DecidableEq

/-- The `updateData` merge performed by `updatePaymentStatus`: the
caller-supplied status is written as-is, a supplied transaction id is
copied, and a status of "complété" also sets `paymentDate` to now. -/
def statusUpdateData (p : Payment) (newStatus : String) (transactionId : Option String)
    (now : Int) : Payment :=
  let p1 := { p with status := newStatus }
  let p2 :=
    match transactionId with
    | some t => { p1 with transactionId := some t }
    | none => p1
  if newStatus = "complété" then { p2 with paymentDate := some now } else p2

/-- `updatePaymentStatus`: after the existence check, the `updateData`
merge is persisted unconditionally — the current status is never compared
against the state machine. -/
def updatePaymentStatus (db : Db) (id : String) (newStatus : String)
    (transactionId : Option String) (now : Int) : UpdateStatusResult × Db :=
  match dbFind db id with
  | none => (.notFound, db)
  | some p =>
      let p3 := statusUpdateData p newStatus transactionId now
      (.updated p3, dbSet db id p3)

/-- Outcome of `cancelPayment`. -/
inductive CancelResult where
  /-- 404 "Paiement non trouvé" -/
  | notFound
  /-- 400 "Impossible d'annuler un paiement complété. Utilisez le remboursement." -/
  | invalidTransition
  /-- 200, the cancelled record -/
  | cancelled (p : Payment)
deriving Repr, DecidableEq

/-- `cancelPayment`: refuses only when the current status is "complété";
any other status — including "remboursé" — is overwritten with "annulé". -/
def cancelPayment (db : Db) (id : String) : CancelResult × Db :=
  match dbFind db id with
  | none => (.notFound, db)
  | some p =>
      if p.status = "complété" then (.invalidTransition, db)
      else
        let p' := { p with status := "annulé" }
        (.cancelled p', dbSet db id p')

/-! ### paymentController.js — processRefund with its effect trace -/

/-- The externally visible side effects of `processRefund`, in execution
order: the record-level refund persisted through the database service, and
a refund creation dispatched to the Stripe service.  The latter is never
actually emitted by the controller: the call site names
`stripeService.processRefund`, a method `StripeService` does not define
(only `createRefund` exists), so the dispatch never happens. -/
inductive Action where
  | persistRefund (id : String) (amount : Rat) (reason : String)
  | gatewayRefund (transactionId : String) (amount : Rat)
deriving Repr, DecidableEq

/-- Modelled from the spec: the external database service endpoint
`POST /api/payments/:id/refund` (called through
`databaseService.refundPayment`, which is only an HTTP client).  Per the
spec, it persists the cumulated `refundAmount`, the `refundDate` and
`refundReason`, and flips the status to "remboursé" exactly when the new
`refundAmount` equals the original `amount`. -/
def refundApply (p : Payment) (amount : Rat) (reason : String) (now : Int) : Payment :=
  let newRefundAmount := p.refundAmount + amount
  { p with
    refundAmount := newRefundAmount
    refundDate := some now
    refundReason := some reason
    status := if newRefundAmount = p.amount then "remboursé" else p.status }

/-- Outcome of `processRefund`. -/
inductive RefundOutcome where
  /-- 404 "Paiement non trouvé" -/
  | notFound
  /-- 400, the `canRefund` reason -/
  | refused (reason : Option RefundReason)
  /-- 200, the refunded record -/
  | refunded (p : Payment)
  /-- 500: after the refund is persisted, the controller evaluates
  `stripeService.processRefund(...)` on the card-with-transaction-id
  path, but `StripeService` defines no such method — the property lookup
  yields `undefined`, the call raises a `TypeError`, and the catch block
  answers 500 with the error message.  The refund persisted in the
  previous step remains. -/
  | serverError
deriving Repr, DecidableEq

/-- `processRefund`: looks the payment up, delegates eligibility to
`canRefund`, then persists the refund through the database service.  When
the method is "carte_credit" and a transaction id is present the source
then calls `stripeService.processRefund` — a method that does not exist
(`stripeService.js` only defines `createRefund`) — so that path throws
and is answered 500, with the already-persisted refund left in place and
no gateway refund ever dispatched; every other eligible payment is
refunded purely at the record level and succeeds.  The returned trace
lists the emitted effects in execution order. -/
def processRefund (now : Int) (db : Db) (id : String) (amount : Rat)
    (reason : String) : RefundOutcome × Db × List Action :=
  match dbFind db id with
  | none => (.notFound, db, [])
  | some p =>
      let check := canRefund now p amount
      if check.canRefund then
        let p' := refundApply p amount reason now
        let db' := dbSet db id p'
        if p.paymentMethod = some "carte_credit" then
          match p.transactionId with
          | some _ => (.serverError, db', [.persistRefund id amount reason])
          | none => (.refunded p', db', [.persistRefund id amount reason])
        else (.refunded p', db', [.persistRefund id amount reason])
      else (.refused check.reason, db, [])

/-- Does the trace place a gateway-refund call strictly before the
record-level persistence?  This is the ordering asserted by the spec for
the refund operation. -/
def gatewayBeforePersist (tr : List Action) : Bool :=
  match tr.findIdx? (fun a => match a with | .gatewayRefund _ _ => true | _ => false),
        tr.findIdx? (fun a => match a with | .persistRefund _ _ _ => true | _ => false) with
  | some i, some j => i < j
  | _, _ => false

/-! ## Theorems -/

/-- Shared helper: a lookup after a write finds the written record. -/
theorem dbFind_dbSet (db : Db) (id : String) (p : Payment) :
    dbFind (dbSet db id p) id = some p := by
  simp [dbFind, dbSet]

/-- Shared helper: `round2` moves a value by at most half a cent. -/
theorem round2_err (x : Rat) : |round2 x - x| ≤ 1/200 := by
  have h1 : ((⌊x * 100 + 1/2⌋ : Int) : Rat) ≤ x * 100 + 1/2 := Int.floor_le _
  have h2 : x * 100 + 1/2 - 1 < ((⌊x * 100 + 1/2⌋ : Int) : Rat) := Int.sub_one_lt_floor _
  rw [abs_le]
  constructor
  · simp only [round2, jsRound]
    linarith
  · simp only [round2, jsRound]
    linarith

/-- C1: a `checkout.session.expired` event correlated to a payment whose
status is already "complété" does NOT leave the status "complété": the
handler unconditionally overwrites it with "échoué".  This evaluates the
code at the failing input of the claim. -/
theorem expired_handler_overwrites_completed_payment :
    (dbFind
        (handleCheckoutExpired 5
          { id := "cs_1", metadataPaymentId := some "p1" }
          [("p1", { status := "complété", amount := 100, paymentDate := some 0 })])
        "p1").map Payment.status = some "échoué" := by
  decide

/-- C4 counterexample: a payment in status "remboursé" is cancelled by
`cancelPayment` (the record ends in "annulé"), instead of failing with the
invalid-transition error the claim requires. -/
theorem cancel_refunded_payment_succeeds :
    (cancelPayment [("p1", { status := "remboursé", amount := 100, refundAmount := 100 })]
        "p1").1
      ≠ CancelResult.invalidTransition ∧
    (dbFind
        (cancelPayment [("p1", { status := "remboursé", amount := 100, refundAmount := 100 })]
            "p1").2
        "p1").map Payment.status = some "annulé" := by
  constructor
  · decide
  · decide

/-- C4 (amended): `cancelPayment` fails with the invalid-transition error
exactly when the current status is "complété" (leaving the store
untouched); every payment in any other status — "remboursé" included — is
set to "annulé". -/
theorem cancel_blocks_only_completed (db : Db) (id : String) (p : Payment)
    (hfound : dbFind db id = some p) :
    (p.status = "complété" → cancelPayment db id = (.invalidTransition, db)) ∧
    (p.status ≠ "complété" →
        cancelPayment db id
          = (.cancelled { p with status := "annulé" },
             dbSet db id { p with status := "annulé" })) := by
  constructor
  · intro h
    simp [cancelPayment, hfound, h]
  · intro h
    simp [cancelPayment, hfound, h]

/-- C4 witness: a concrete "complété" payment is refused with the
invalid-transition error and the store is unchanged. -/
theorem cancel_blocks_only_completed_witness :
    cancelPayment [("p1", { status := "complété", amount := 100 })] "p1"
      = (.invalidTransition, [("p1", { status := "complété", amount := 100 })]) :=
  (cancel_blocks_only_completed
      [("p1", { status := "complété", amount := 100 })] "p1"
      { status := "complété", amount := 100 } (by decide)).1 rfl

/-- C6: `calculateTransactionFees` is the static per-method schedule —
card 2.9% + 0.30, paypal 3.4% + 0.35, bank transfer 0.5% + 0, cash/other
0 — with the monetary results rounded to two decimals by `round2`
(half-up at the cent), and the returned `netAmount` plus `totalFees`
reconstructs the input amount up to one cent of rounding. -/
theorem transaction_fees_schedule_and_reconciliation (amount : Rat) (m : String) :
    calculateTransactionFees amount m =
      { amount := amount
        percentageFee := round2 (amount * feeRateOf m)
        fixedFee := fixedFeeOf m
        totalFees := round2 (amount * feeRateOf m + fixedFeeOf m)
        netAmount := round2 (amount - (amount * feeRateOf m + fixedFeeOf m)) } ∧
    (feeRateOf "carte_credit" = 29/1000 ∧ fixedFeeOf "carte_credit" = 30/100) ∧
    (feeRateOf "paypal" = 34/1000 ∧ fixedFeeOf "paypal" = 35/100) ∧
    (feeRateOf "virement" = 5/1000 ∧ fixedFeeOf "virement" = 0) ∧
    (feeRateOf "especes" = 0 ∧ fixedFeeOf "especes" = 0) ∧
    (feeRateOf "autre" = 0 ∧ fixedFeeOf "autre" = 0) ∧
    |(calculateTransactionFees amount m).netAmount
        + (calculateTransactionFees amount m).totalFees - amount| ≤ 1/100 := by
  refine ⟨rfl, by simp [feeRateOf, fixedFeeOf], by simp [feeRateOf, fixedFeeOf],
    by simp [feeRateOf, fixedFeeOf], by simp [feeRateOf, fixedFeeOf],
    by simp [feeRateOf, fixedFeeOf], ?_⟩
  have e1 := round2_err (amount - (amount * feeRateOf m + fixedFeeOf m))
  have e2 := round2_err (amount * feeRateOf m + fixedFeeOf m)
  have hsplit :
      (calculateTransactionFees amount m).netAmount
          + (calculateTransactionFees amount m).totalFees - amount
        = (round2 (amount - (amount * feeRateOf m + fixedFeeOf m))
              - (amount - (amount * feeRateOf m + fixedFeeOf m)))
          + (round2 (amount * feeRateOf m + fixedFeeOf m)
              - (amount * feeRateOf m + fixedFeeOf m)) := by
    show round2 (amount - (amount * feeRateOf m + fixedFeeOf m))
          + round2 (amount * feeRateOf m + fixedFeeOf m) - amount = _
    ring
  rw [hsplit]
  calc |_ + _| ≤ _ + _ := abs_add _ _
    _ ≤ 1/200 + 1/200 := add_le_add e1 e2
    _ = 1/100 := by norm_num

/-- C7: `canRefund` applies exactly the three rules in their fixed order
and answers with the first failing rule: (1) status must be "complété",
(2) the request must not exceed `amount - refundAmount` (the rejection
carries that maximum), (3) now must be within 30 days of the payment
date; when all three pass the payment is eligible. -/
theorem can_refund_rule_order (now d : Int) (p : Payment) (req : Rat) :
    (p.status ≠ "complété" →
        canRefund now p req
          = { canRefund := false, reason := some RefundReason.notCompleted }) ∧
    (p.status = "complété" → p.amount - p.refundAmount < req →
        canRefund now p req
          = { canRefund := false,
              reason := some (RefundReason.maxRefundable (p.amount - p.refundAmount)) }) ∧
    (p.status = "complété" → req ≤ p.amount - p.refundAmount →
        p.paymentDate = some d → d + thirtyDaysMs < now →
        canRefund now p req
          = { canRefund := false, reason := some RefundReason.windowPassed }) ∧
    (p.status = "complété" → req ≤ p.amount - p.refundAmount →
        p.paymentDate = some d → now ≤ d + thirtyDaysMs →
        canRefund now p req = { canRefund := true, reason := none }) := by
  refine ⟨?_, ?_, ?_, ?_⟩
  · intro h
    simp [canRefund, h]
  · intro h hmax
    simp [canRefund, h, hmax]
  · intro h hmax hd hlate
    simp [canRefund, h, not_lt.mpr hmax, afterRefundDeadline, hd, hlate]
  · intro h hmax hd hok
    simp [canRefund, h, not_lt.mpr hmax, afterRefundDeadline, hd, not_lt.mpr hok]

/-- C7 witness: the three test vectors of the spec — a completed payment
of amount 100 with no prior refund and a fresh payment date is eligible
for 50, rejected for 150 with the maximum-refundable reason, and rejected
with the window reason 40 days after payment. -/
theorem can_refund_rule_order_witness :
    canRefund 0
        { status := "complété", amount := 100, refundAmount := 0, paymentDate := some 0 } 50
      = { canRefund := true, reason := none } ∧
    canRefund 0
        { status := "complété", amount := 100, refundAmount := 0, paymentDate := some 0 } 150
      = { canRefund := false, reason := some (RefundReason.maxRefundable 100) } ∧
    canRefund 3456000000
        { status := "complété", amount := 100, refundAmount := 0, paymentDate := some 0 } 50
      = { canRefund := false, reason := some RefundReason.windowPassed } := by
  refine ⟨?_, ?_, ?_⟩
  · exact (can_refund_rule_order 0 0
        { status := "complété", amount := 100, refundAmount := 0, paymentDate := some 0 }
        50).2.2.2 rfl (by norm_num) rfl (by norm_num [thirtyDaysMs])
  · have := (can_refund_rule_order 0 0
        { status := "complété", amount := 100, refundAmount := 0, paymentDate := some 0 }
        150).2.1 rfl (by norm_num)
    simpa using this
  · exact (can_refund_rule_order 3456000000 0
        { status := "complété", amount := 100, refundAmount := 0, paymentDate := some 0 }
        50).2.2.1 rfl (by norm_num) rfl (by norm_num [thirtyDaysMs])

/-- C9: the webhook endpoint answers 400 exactly when signature
verification fails; every verified delivery — unrecognized event types and
events that correlate to no payment included — is acknowledged with
`200 {received: true}`. -/
theorem webhook_400_iff_bad_signature (cfg : StripeConfig) (now : Int)
    (input : WebhookInput) (db : Db) :
    ((handleStripeWebhook cfg now input db).1.status = 400 ↔
        ∃ m, input = WebhookInput.badSignature m) ∧
    ∀ e, input = WebhookInput.valid e →
        (handleStripeWebhook cfg now input db).1 = { status := 200, received := true } := by
  cases input with
  | valid e => simp [handleStripeWebhook]
  | badSignature m => simp [handleStripeWebhook]

/-- C9 witness: a verified event of an unrecognized type, carrying a
session that correlates to no payment, still gets `200 {received: true}`
on an empty store. -/
theorem webhook_400_iff_bad_signature_witness :
    (handleStripeWebhook {} 0
        (WebhookInput.valid { type := "charge.dispute.created", obj := { id := "cs_x" } })
        []).1
      = { status := 200, received := true } :=
  (webhook_400_iff_bad_signature {} 0
      (WebhookInput.valid { type := "charge.dispute.created", obj := { id := "cs_x" } })
      []).2 _ rfl

/-- C10: for every existing payment — whatever its current status — the
update-status operation persists the caller-supplied status with no
state-machine check, and sets `paymentDate` to now exactly when the
supplied status is "complété" (otherwise the stored date is kept). -/
theorem update_status_writes_unconditionally (db : Db) (id : String) (p : Payment)
    (newStatus : String) (txn : Option String) (now : Int)
    (hfound : dbFind db id = some p) :
    updatePaymentStatus db id newStatus txn now
      = (.updated (statusUpdateData p newStatus txn now),
         dbSet db id (statusUpdateData p newStatus txn now)) ∧
    (statusUpdateData p newStatus txn now).status = newStatus ∧
    (newStatus = "complété" →
        (statusUpdateData p newStatus txn now).paymentDate = some now) ∧
    (newStatus ≠ "complété" →
        (statusUpdateData p newStatus txn now).paymentDate = p.paymentDate) := by
  refine ⟨?_, ?_, ?_, ?_⟩
  · simp [updatePaymentStatus, hfound]
  · cases txn <;> simp [statusUpdateData] <;> split <;> rfl
  · intro h
    cases txn <;> simp [statusUpdateData, h]
  · intro h
    cases txn <;> simp [statusUpdateData, h]

/-- C10 witness: a "remboursé" payment is moved back to "en_attente" by
the endpoint, and its stored payment date is untouched. -/
theorem update_status_writes_unconditionally_witness :
    updatePaymentStatus [("p1", { status := "remboursé", amount := 100, refundAmount := 100 })]
        "p1" "en_attente" none 9
      = (.updated { status := "en_attente", amount := 100, refundAmount := 100 },
         dbSet [("p1", { status := "remboursé", amount := 100, refundAmount := 100 })]
           "p1" { status := "en_attente", amount := 100, refundAmount := 100 }) :=
  (update_status_writes_unconditionally
      [("p1", { status := "remboursé", amount := 100, refundAmount := 100 })] "p1"
      { status := "remboursé", amount := 100, refundAmount := 100 }
      "en_attente" none 9 (by decide)).1

/-- C8 counterexample: a card-method creation request of the
checkout-link flow that omits the sensitive detail fields but is
otherwise well-formed does NOT pass validation — `validatePaymentData`
returns the three card-detail errors and `createPayment` refuses the
request instead of proceeding. -/
theorem card_request_without_details_fails_validation :
    validatePaymentData
        { reservation := some "64a0f0f0f0f0f0f0f0f0f0f0"
          reservationId := some "64a0f0f0f0f0f0f0f0f0f0f0"
          amount := some 100
          paymentMethod := some "carte_credit" }
      = ["Numéro de carte requis", "Date d'expiration requise", "Code CVV requis"] ∧
    (createPayment ["64a0f0f0f0f0f0f0f0f0f0f0"] [] 0 "abc" "p1"
        { reservation := some "64a0f0f0f0f0f0f0f0f0f0f0"
          reservationId := some "64a0f0f0f0f0f0f0f0f0f0f0"
          amount := some 100
          paymentMethod := some "carte_credit" }).1
      = CreateResult.validationError
          ["Numéro de carte requis", "Date d'expiration requise", "Code CVV requis"] := by
  constructor
  · decide
  · decide

/-- C8 (amended): the card-detail presence validation applies to every
card-method creation request, the checkout-link flow included: whenever
the method is "carte_credit" and no `paymentDetails` are supplied, the
validator reports the card-number error (so the error list is nonempty)
and `createPayment` answers with the validation error, proceeding with no
creation. -/
theorem card_detail_validation_applies_to_all_flows (req : PaymentRequest)
    (hm : req.paymentMethod = some "carte_credit")
    (hd : req.paymentDetails = none) :
    "Numéro de carte requis" ∈ validatePaymentData req ∧
    validatePaymentData req ≠ [] ∧
    ∀ (reservations : List String) (db : Db) (now : Int) (rnd newId : String),
      createPayment reservations db now rnd newId req
        = (.validationError (validatePaymentData req), db) := by
  have hmem : "Numéro de carte requis" ∈ validatePaymentData req := by
    simp [validatePaymentData, hm, hd, validMethods]
  refine ⟨hmem, List.ne_nil_of_mem hmem, ?_⟩
  intro reservations db now rnd newId
  simp [createPayment, List.ne_nil_of_mem hmem]

/-- C8 witness: a concrete checkout-link card request without detail
fields is rejected with the card-number error and creation is refused. -/
theorem card_detail_validation_applies_to_all_flows_witness :
    "Numéro de carte requis" ∈
        validatePaymentData
          { reservation := some "64a0aaaaaaaaaaaaaaaaaaaa"
            reservationId := some "64a0aaaaaaaaaaaaaaaaaaaa"
            amount := some 150
            paymentMethod := some "carte_credit" } ∧
    createPayment ["64a0aaaaaaaaaaaaaaaaaaaa"] [] 4 "xyz" "p7"
        { reservation := some "64a0aaaaaaaaaaaaaaaaaaaa"
          reservationId := some "64a0aaaaaaaaaaaaaaaaaaaa"
          amount := some 150
          paymentMethod := some "carte_credit" }
      = (.validationError
          (validatePaymentData
            { reservation := some "64a0aaaaaaaaaaaaaaaaaaaa"
              reservationId := some "64a0aaaaaaaaaaaaaaaaaaaa"
              amount := some 150
              paymentMethod := some "carte_credit" }), []) := by
  have h := card_detail_validation_applies_to_all_flows
    { reservation := some "64a0aaaaaaaaaaaaaaaaaaaa"
      reservationId := some "64a0aaaaaaaaaaaaaaaaaaaa"
      amount := some 150
      paymentMethod := some "carte_credit" } rfl rfl
  exact ⟨h.1, h.2.2 ["64a0aaaaaaaaaaaaaaaaaaaa"] [] 4 "xyz" "p7"⟩

/-- C5: a creation request that passes validation and references an
existing reservation is persisted and returned as a new record in status
"en_attente" with the synthetic placeholder transaction id, and the
persisted/returned record carries no sensitive payment details — whatever
the request contained; when the referenced reservation is unknown (or the
`reservationId` field is absent) the operation answers the 404 and the
store is unchanged. -/
theorem create_payment_pending_and_sanitized (reservations : List String) (db : Db)
    (now : Int) (rnd newId : String) (req : PaymentRequest)
    (hvalid : validatePaymentData req = []) :
    (∀ rid, req.reservationId = some rid → rid ∈ reservations →
        createPayment reservations db now rnd newId req
          = (.created newId (paymentDataForDB now rnd req),
             dbSet db newId (paymentDataForDB now rnd req)) ∧
        (paymentDataForDB now rnd req).status = "en_attente" ∧
        (paymentDataForDB now rnd req).transactionId
          = some (mkTempTransactionId now rnd) ∧
        (paymentDataForDB now rnd req).paymentDetails = none) ∧
    (req.reservationId = none →
        createPayment reservations db now rnd newId req = (.reservationNotFound, db)) ∧
    (∀ rid, req.reservationId = some rid → rid ∉ reservations →
        createPayment reservations db now rnd newId req = (.reservationNotFound, db)) := by
  refine ⟨?_, ?_, ?_⟩
  · intro rid hrid hmem
    refine ⟨?_, rfl, rfl, rfl⟩
    simp [createPayment, hvalid, hrid, hmem]
  · intro hnone
    simp [createPayment, hvalid, hnone]
  · intro rid hrid hnot
    simp [createPayment, hvalid, hrid, hnot]

/-- C5 witness: a valid bank-transfer request (its sensitive details
present in the request) referencing a known reservation is created
pending, sanitized, with the placeholder transaction id; the same request
against a store that does not know the reservation is answered 404 with
nothing persisted. -/
theorem create_payment_pending_and_sanitized_witness :
    (createPayment ["64a0bbbbbbbbbbbbbbbbbbbb"] [] 12 "r4nd" "p1"
        { reservation := some "64a0bbbbbbbbbbbbbbbbbbbb"
          reservationId := some "64a0bbbbbbbbbbbbbbbbbbbb"
          amount := some 80
          paymentMethod := some "virement"
          paymentDetails := some { cardNumber := some "4242424242424242" } }
      = (.created "p1"
          (paymentDataForDB 12 "r4nd"
            { reservation := some "64a0bbbbbbbbbbbbbbbbbbbb"
              reservationId := some "64a0bbbbbbbbbbbbbbbbbbbb"
              amount := some 80
              paymentMethod := some "virement"
              paymentDetails := some { cardNumber := some "4242424242424242" } }),
         dbSet [] "p1"
          (paymentDataForDB 12 "r4nd"
            { reservation := some "64a0bbbbbbbbbbbbbbbbbbbb"
              reservationId := some "64a0bbbbbbbbbbbbbbbbbbbb"
              amount := some 80
              paymentMethod := some "virement"
              paymentDetails := some { cardNumber := some "4242424242424242" } }))) ∧
    (paymentDataForDB 12 "r4nd"
        { reservation := some "64a0bbbbbbbbbbbbbbbbbbbb"
          reservationId := some "64a0bbbbbbbbbbbbbbbbbbbb"
          amount := some 80
          paymentMethod := some "virement"
          paymentDetails := some { cardNumber := some "4242424242424242" } }).status
      = "en_attente" ∧
    (paymentDataForDB 12 "r4nd"
        { reservation := some "64a0bbbbbbbbbbbbbbbbbbbb"
          reservationId := some "64a0bbbbbbbbbbbbbbbbbbbb"
          amount := some 80
          paymentMethod := some "virement"
          paymentDetails := some { cardNumber := some "4242424242424242" } }).paymentDetails
      = none ∧
    createPayment [] [] 12 "r4nd" "p1"
        { reservation := some "64a0bbbbbbbbbbbbbbbbbbbb"
          reservationId := some "64a0bbbbbbbbbbbbbbbbbbbb"
          amount := some 80
          paymentMethod := some "virement"
          paymentDetails := some { cardNumber := some "4242424242424242" } }
      = (.reservationNotFound, []) := by
  have hok := (create_payment_pending_and_sanitized ["64a0bbbbbbbbbbbbbbbbbbbb"] [] 12
      "r4nd" "p1"
      { reservation := some "64a0bbbbbbbbbbbbbbbbbbbb"
        reservationId := some "64a0bbbbbbbbbbbbbbbbbbbb"
        amount := some 80
        paymentMethod := some "virement"
        paymentDetails := some { cardNumber := some "4242424242424242" } }
      (by decide)).1 "64a0bbbbbbbbbbbbbbbbbbbb" rfl (by decide)
  have hmiss := (create_payment_pending_and_sanitized [] [] 12 "r4nd" "p1"
      { reservation := some "64a0bbbbbbbbbbbbbbbbbbbb"
        reservationId := some "64a0bbbbbbbbbbbbbbbbbbbb"
        amount := some 80
        paymentMethod := some "virement"
        paymentDetails := some { cardNumber := some "4242424242424242" } }
      (by decide)).2.2 "64a0bbbbbbbbbbbbbbbbbbbb" rfl (by decide)
  exact ⟨hok.1, hok.2.1, hok.2.2.2, hmiss⟩

/-- C3 counterexample: for a concrete completed, eligible card payment
with a transaction id, `processRefund` never creates a gateway refund at
all — its trace holds only the record-level persistence, so the gateway
call in particular does not happen before persistence — and the request
ends in the 500 raised by the undefined `stripeService.processRefund`,
after the refund fields were already persisted. -/
theorem refund_gateway_call_is_not_before_persistence :
    (processRefund 0
        [("p1", { status := "complété", amount := 100, refundAmount := 0,
                  paymentDate := some 0, paymentMethod := some "carte_credit",
                  transactionId := some "pi_1" })]
        "p1" 50 "demande client").2.2
      = [Action.persistRefund "p1" 50 "demande client"] ∧
    gatewayBeforePersist
        (processRefund 0
          [("p1", { status := "complété", amount := 100, refundAmount := 0,
                    paymentDate := some 0, paymentMethod := some "carte_credit",
                    transactionId := some "pi_1" })]
          "p1" 50 "demande client").2.2
      = false ∧
    (processRefund 0
        [("p1", { status := "complété", amount := 100, refundAmount := 0,
                  paymentDate := some 0, paymentMethod := some "carte_credit",
                  transactionId := some "pi_1" })]
        "p1" 50 "demande client").1
      = RefundOutcome.serverError := by
  refine ⟨?_, ?_, ?_⟩
  · simp [processRefund, dbFind, canRefund, afterRefundDeadline, thirtyDaysMs]
    norm_num
  · simp [processRefund, dbFind, canRefund, afterRefundDeadline, thirtyDaysMs,
      gatewayBeforePersist]
    norm_num
  · simp [processRefund, dbFind, canRefund, afterRefundDeadline, thirtyDaysMs]
    norm_num

/-- C3 (amended): for every found, eligible payment the refund is carried
out purely at the record level and no gateway refund is ever dispatched:
the trace of `processRefund` is exactly the record-level persistence.  On
the path the claim singles out — method "carte_credit" with a transaction
id present — the controller attempts the gateway call only AFTER that
persistence, and the attempt fails (the named `stripeService.processRefund`
does not exist), so the request is answered with the server error while
the persisted `refundAmount`/`refundDate`/`refundReason` remain in the
store; every other eligible payment succeeds with the refunded record. -/
theorem refund_record_level_only (now : Int) (db : Db) (id : String)
    (amount : Rat) (reason : String) (p : Payment)
    (hfound : dbFind db id = some p)
    (helig : (canRefund now p amount).canRefund = true) :
    ((processRefund now db id amount reason).2.2
        = [Action.persistRefund id amount reason]) ∧
    (∀ t a, Action.gatewayRefund t a ∉ (processRefund now db id amount reason).2.2) ∧
    (∀ t, p.paymentMethod = some "carte_credit" → p.transactionId = some t →
        (processRefund now db id amount reason).1 = RefundOutcome.serverError ∧
        dbFind (processRefund now db id amount reason).2.1 id
          = some (refundApply p amount reason now)) ∧
    ((p.paymentMethod ≠ some "carte_credit" ∨ p.transactionId = none) →
        (processRefund now db id amount reason).1
          = RefundOutcome.refunded (refundApply p amount reason now)) := by
  have htrace : (processRefund now db id amount reason).2.2
      = [Action.persistRefund id amount reason] := by
    by_cases hpm : p.paymentMethod = some "carte_credit"
    · cases htx : p.transactionId with
      | none => simp [processRefund, hfound, helig, hpm, htx]
      | some t => simp [processRefund, hfound, helig, hpm, htx]
    · simp [processRefund, hfound, helig, hpm]
  refine ⟨htrace, ?_, ?_, ?_⟩
  · intro t a
    rw [htrace]
    simp
  · intro t hcard htxn
    constructor
    · simp [processRefund, hfound, helig, hcard, htxn]
    · simp [processRefund, hfound, helig, hcard, htxn, dbFind_dbSet]
  · intro hnot
    rcases hnot with hnc | hnone
    · simp [processRefund, hfound, helig, hnc]
    · by_cases hpm : p.paymentMethod = some "carte_credit"
      · simp [processRefund, hfound, helig, hpm, hnone]
      · simp [processRefund, hfound, helig, hpm]

/-- C3 witness: a concrete eligible bank-transfer payment is refunded at
the record level and succeeds; a concrete eligible card payment with a
transaction id ends in the server error, yet its persisted refund is in
the store — and neither trace contains a gateway refund. -/
theorem refund_record_level_only_witness :
    (processRefund 0
        [("p2", { status := "complété", amount := 100, refundAmount := 0,
                  paymentDate := some 0, paymentMethod := some "virement" })]
        "p2" 30 "avoir").1
      = RefundOutcome.refunded
          (refundApply
            { status := "complété", amount := 100, refundAmount := 0,
              paymentDate := some 0, paymentMethod := some "virement" }
            30 "avoir" 0) ∧
    (processRefund 0
        [("p3", { status := "complété", amount := 100, refundAmount := 0,
                  paymentDate := some 0, paymentMethod := some "carte_credit",
                  transactionId := some "pi_3" })]
        "p3" 30 "avoir").1
      = RefundOutcome.serverError ∧
    dbFind
        (processRefund 0
          [("p3", { status := "complété", amount := 100, refundAmount := 0,
                    paymentDate := some 0, paymentMethod := some "carte_credit",
                    transactionId := some "pi_3" })]
          "p3" 30 "avoir").2.1 "p3"
      = some
          (refundApply
            { status := "complété", amount := 100, refundAmount := 0,
              paymentDate := some 0, paymentMethod := some "carte_credit",
              transactionId := some "pi_3" }
            30 "avoir" 0) ∧
    (processRefund 0
        [("p3", { status := "complété", amount := 100, refundAmount := 0,
                  paymentDate := some 0, paymentMethod := some "carte_credit",
                  transactionId := some "pi_3" })]
        "p3" 30 "avoir").2.2
      = [Action.persistRefund "p3" 30 "avoir"] := by
  have h2 := (refund_record_level_only 0
      [("p2", { status := "complété", amount := 100, refundAmount := 0,
                paymentDate := some 0, paymentMethod := some "virement" })]
      "p2" 30 "avoir"
      { status := "complété", amount := 100, refundAmount := 0,
        paymentDate := some 0, paymentMethod := some "virement" }
      (by decide)
      (by simp [canRefund, afterRefundDeadline, thirtyDaysMs]; norm_num)).2.2.2
    (Or.inl (by decide))
  have h3 := refund_record_level_only 0
      [("p3", { status := "complété", amount := 100, refundAmount := 0,
                paymentDate := some 0, paymentMethod := some "carte_credit",
                transactionId := some "pi_3" })]
      "p3" 30 "avoir"
      { status := "complété", amount := 100, refundAmount := 0,
        paymentDate := some 0, paymentMethod := some "carte_credit",
        transactionId := some "pi_3" }
      (by decide)
      (by simp [canRefund, afterRefundDeadline, thirtyDaysMs]; norm_num)
  have h3card := h3.2.2.1 "pi_3" rfl rfl
  exact ⟨h2, h3card.1, h3card.2, h3.1⟩

/-- C2: the checkout-completed handler is idempotent — delivering the same
completed event (same session, same gateway-reported amount) a second time
leaves the correlated payment in status "complété" with `fees` and
`netAmount` identical to those after the first delivery; the fee values
are overwritten by a pure function of the session, never accumulated. -/
theorem checkout_completed_idempotent (cfg : StripeConfig) (now now2 : Int)
    (session : StripeSession) (db : Db) (paymentId : String) (p : Payment)
    (hmeta : session.metadataPaymentId = some paymentId)
    (hfound : dbFind db paymentId = some p) :
    ((dbFind (handleCheckoutCompleted cfg now session db) paymentId).map
        Payment.status = some "complété") ∧
    ((dbFind (handleCheckoutCompleted cfg now2 session
          (handleCheckoutCompleted cfg now session db)) paymentId).map
        Payment.status = some "complété") ∧
    ((dbFind (handleCheckoutCompleted cfg now2 session
          (handleCheckoutCompleted cfg now session db)) paymentId).map
        Payment.fees
      = (dbFind (handleCheckoutCompleted cfg now session db) paymentId).map
          Payment.fees) ∧
    ((dbFind (handleCheckoutCompleted cfg now2 session
          (handleCheckoutCompleted cfg now session db)) paymentId).map
        Payment.netAmount
      = (dbFind (handleCheckoutCompleted cfg now session db) paymentId).map
          Payment.netAmount) := by
  have hstep : ∀ (n : Int) (d : Db) (q : Payment), dbFind d paymentId = some q →
      dbFind (handleCheckoutCompleted cfg n session d) paymentId
        = some { applyCheckoutCompleted cfg n session q with status := "complété" } := by
    intro n d q hq
    simp [handleCheckoutCompleted, hmeta, hq, markPaymentAsCompleted, dbFind_dbSet]
  have hfees : ∀ (n1 n2 : Int) (a b : Payment),
      b.fees = (applyCheckoutCompleted cfg n1 session a).fees →
      (applyCheckoutCompleted cfg n2 session b).fees
        = (applyCheckoutCompleted cfg n1 session a).fees := by
    intro n1 n2 a b hab
    cases hat : session.amountTotal with
    | none => simpa [applyCheckoutCompleted, hat] using hab
    | some c =>
        by_cases hc : c = 0
        · simpa [applyCheckoutCompleted, hat, hc] using hab
        · simp [applyCheckoutCompleted, hat, hc]
  have hnet : ∀ (n1 n2 : Int) (a b : Payment),
      b.netAmount = (applyCheckoutCompleted cfg n1 session a).netAmount →
      (applyCheckoutCompleted cfg n2 session b).netAmount
        = (applyCheckoutCompleted cfg n1 session a).netAmount := by
    intro n1 n2 a b hab
    cases hat : session.amountTotal with
    | none => simpa [applyCheckoutCompleted, hat] using hab
    | some c =>
        by_cases hc : c = 0
        · simpa [applyCheckoutCompleted, hat, hc] using hab
        · simp [applyCheckoutCompleted, hat, hc]
  have h1 := hstep now db p hfound
  have h2 := hstep now2 _
    { applyCheckoutCompleted cfg now session p with status := "complété" } h1
  refine ⟨?_, ?_, ?_, ?_⟩
  · rw [h1]
    rfl
  · rw [h2]
    rfl
  · rw [h1, h2]
    exact congrArg some
      (hfees now now2 p
        { applyCheckoutCompleted cfg now session p with status := "complété" } rfl)
  · rw [h1, h2]
    exact congrArg some
      (hnet now now2 p
        { applyCheckoutCompleted cfg now session p with status := "complété" } rfl)

/-- C2 witness: a concrete completed-session event, delivered twice to a
store holding the correlated "traitement" payment, leaves it "complété"
with the same fees and net amount after both deliveries. -/
theorem checkout_completed_idempotent_witness :
    ((dbFind (handleCheckoutCompleted {} 3
          { id := "cs_1", paymentIntent := some "pi_9", amountTotal := some 10000,
            metadataPaymentId := some "p1" }
          [("p1", { status := "traitement", amount := 100 })]) "p1").map
        Payment.status = some "complété") ∧
    ((dbFind (handleCheckoutCompleted {} 7
          { id := "cs_1", paymentIntent := some "pi_9", amountTotal := some 10000,
            metadataPaymentId := some "p1" }
          (handleCheckoutCompleted {} 3
            { id := "cs_1", paymentIntent := some "pi_9", amountTotal := some 10000,
              metadataPaymentId := some "p1" }
            [("p1", { status := "traitement", amount := 100 })])) "p1").map
        Payment.status = some "complété") ∧
    ((dbFind (handleCheckoutCompleted {} 7
          { id := "cs_1", paymentIntent := some "pi_9", amountTotal := some 10000,
            metadataPaymentId := some "p1" }
          (handleCheckoutCompleted {} 3
            { id := "cs_1", paymentIntent := some "pi_9", amountTotal := some 10000,
              metadataPaymentId := some "p1" }
            [("p1", { status := "traitement", amount := 100 })])) "p1").map
        Payment.fees
      = (dbFind (handleCheckoutCompleted {} 3
            { id := "cs_1", paymentIntent := some "pi_9", amountTotal := some 10000,
              metadataPaymentId := some "p1" }
            [("p1", { status := "traitement", amount := 100 })]) "p1").map
          Payment.fees) ∧
    ((dbFind (handleCheckoutCompleted {} 7
          { id := "cs_1", paymentIntent := some "pi_9", amountTotal := some 10000,
            metadataPaymentId := some "p1" }
          (handleCheckoutCompleted {} 3
            { id := "cs_1", paymentIntent := some "pi_9", amountTotal := some 10000,
              metadataPaymentId := some "p1" }
            [("p1", { status := "traitement", amount := 100 })])) "p1").map
        Payment.netAmount
      = (dbFind (handleCheckoutCompleted {} 3
            { id := "cs_1", paymentIntent := some "pi_9", amountTotal := some 10000,
              metadataPaymentId := some "p1" }
            [("p1", { status := "traitement", amount := 100 })]) "p1").map
          Payment.netAmount) :=
  checkout_completed_idempotent {} 3 7
    { id := "cs_1", paymentIntent := some "pi_9", amountTotal := some 10000,
      metadataPaymentId := some "p1" }
    [("p1", { status := "traitement", amount := 100 })] "p1"
    { status := "traitement", amount := 100 } rfl (by decide)

end PaymentSvc
